import Mathlib

/-!
Verification of the Graphene payment-splitter protocol header
(`libraries/chain/include/graphene/chain/protocol/splitter.hpp`).

The header declares the five splitter operations (create, update, pay,
payout, delete), their `validate`, `fee_payer` and `calculate_fee`
members, the target descriptor types and their validator, and the
`FC_REFLECT` serialization field lists.  Those are embedded below
directly from the source.  Parts of the system the header only refers
to (the `price` type's `validate`, `fc::raw::pack_size`,
`calculate_data_fee`, the base operation's fixed fee, the pay handler
and the distribution engine) are modelled from the design document and
are marked `Modelled from the spec:` in their doc comments.

Machine integers: `share_type` (a checked int64) is modelled as `Int`,
unsigned fields (`uint16_t weight`, `uint64_t fee`,
`uint32_t price_per_kbyte`, object-id instances) as `Nat`.  None of
the verified properties involve wrap-around, and the C++ types are
overflow-checked, so no modular reduction is introduced.
-/

/-- Object-id types (`object_id<...>`); opaque keys, modelled by their
instance number. -/
abbrev account_id_type := Nat

/-- Asset-id type; opaque key, modelled by its instance number. -/
abbrev asset_id_type := Nat

/-- Splitter-id type; opaque key, modelled by its instance number. -/
abbrev splitter_id_type := Nat

/-- `share_type` (`safe<int64_t>`). -/
abbrev share_type := Int

/-- `asset`: an amount together with the id of the asset it is
denominated in. -/
structure asset where
  amount : share_type
  asset_id : asset_id_type
deriving DecidableEq

/-- `price`: a ratio of two assets (base over quote). -/
structure price where
  base : asset
  quote : asset
deriving DecidableEq

/-- Modelled from the spec: `price::validate()` is not under `src/`;
§3 states a `limit_price` is well-formed when "both sides of the price
are positive and of distinct asset ids". -/
def price_validate (p : price) : Bool :=
  decide (0 < p.base.amount) && decide (0 < p.quote.amount) &&
    decide (p.base.asset_id ≠ p.quote.asset_id)

/-- `market_buyback`: an asset to buy and the limit price at which the
allocated share is converted into a limit order. -/
structure market_buyback where
  asset_to_buy : asset_id_type
  limit_price : price
deriving DecidableEq

/-- `market_buyback::validate()`: `limit_price.validate()` followed by
`FC_ASSERT( limit_price.quote.asset_id == asset_to_buy )`. -/
def market_buyback.validate (b : market_buyback) : Bool :=
  price_validate b.limit_price && decide (b.limit_price.quote.asset_id = b.asset_to_buy)

/-- `payment_target_type = static_variant<account_id_type, market_buyback>`. -/
inductive payment_target_type where
  | account : account_id_type → payment_target_type
  | buyback : market_buyback → payment_target_type
deriving DecidableEq

/-- `payment_target`: a `uint16_t` weight paired with a target. -/
structure payment_target where
  weight : Nat
  target : payment_target_type
deriving DecidableEq

/-- The `payment_target_validate` visitor: accepts any
`account_id_type`; for a `market_buyback` it asserts
`t.asset_to_buy == t.limit_price.quote.asset_id` and runs
`t.limit_price.validate()`. -/
def payment_target_validate : payment_target_type → Bool
  | .account _ => true
  | .buyback t =>
      decide (t.asset_to_buy = t.limit_price.quote.asset_id) && price_validate t.limit_price

/-- `splitter_create_operation`. -/
structure splitter_create_operation where
  fee : asset
  payer : account_id_type
  owner : account_id_type
  targets : List payment_target
  min_payment : asset
  max_payment : share_type
  payout_threshold : share_type
deriving DecidableEq

/-- `splitter_create_operation::fee_parameters_type`. -/
structure splitter_create_operation.fee_parameters_type where
  fee : Nat
  price_per_kbyte : Nat
deriving DecidableEq

/-- `splitter_create_operation::validate()`: the sequence of
`FC_ASSERT`s on fee, bounds, threshold, and the per-target loop that
checks the weight and visits `payment_target_validate`. -/
def splitter_create_operation.validate (op : splitter_create_operation) : Bool :=
  decide (0 ≤ op.fee.amount) &&
  decide (0 < op.min_payment.amount) &&
  decide (op.min_payment.amount ≤ op.max_payment) &&
  decide (0 ≤ op.payout_threshold) &&
  op.targets.all (fun t => decide (0 < t.weight) && payment_target_validate t.target)

/-- `splitter_create_operation::fee_payer()` returns `payer`. -/
def splitter_create_operation.fee_payer (op : splitter_create_operation) : account_id_type :=
  op.payer

/-- `splitter_update_operation`. -/
structure splitter_update_operation where
  fee : asset
  splitter_id : splitter_id_type
  owner : account_id_type
  new_owner : account_id_type
  targets : List payment_target
  min_payment : asset
  max_payment : share_type
  payout_threshold : share_type
deriving DecidableEq

/-- `splitter_update_operation::fee_parameters_type`. -/
structure splitter_update_operation.fee_parameters_type where
  fee : Nat
  price_per_kbyte : Nat
deriving DecidableEq

/-- `splitter_update_operation::validate()`: asserts on fee, bounds
and threshold, then `for( const auto& t : targets ) FC_ASSERT( t.weight > 0 );`
— the per-target loop checks only the weight and does not visit
`payment_target_validate`. -/
def splitter_update_operation.validate (op : splitter_update_operation) : Bool :=
  decide (0 ≤ op.fee.amount) &&
  decide (0 < op.min_payment.amount) &&
  decide (op.min_payment.amount ≤ op.max_payment) &&
  decide (0 ≤ op.payout_threshold) &&
  op.targets.all (fun t => decide (0 < t.weight))

/-- `splitter_update_operation::fee_payer()` returns `owner`. -/
def splitter_update_operation.fee_payer (op : splitter_update_operation) : account_id_type :=
  op.owner

/-- `splitter_pay_operation`. -/
structure splitter_pay_operation where
  fee : asset
  splitter_id : splitter_id_type
  paying_account : account_id_type
  payment : asset
deriving DecidableEq

/-- `splitter_pay_operation::fee_parameters_type` (fixed fee only). -/
structure splitter_pay_operation.fee_parameters_type where
  fee : Nat
deriving DecidableEq

/-- `splitter_pay_operation::validate()`:
`FC_ASSERT( payment.amount > 0 ); FC_ASSERT( fee.amount >= 0 );`. -/
def splitter_pay_operation.validate (op : splitter_pay_operation) : Bool :=
  decide (0 < op.payment.amount) && decide (0 ≤ op.fee.amount)

/-- `splitter_pay_operation::fee_payer()` returns `paying_account`. -/
def splitter_pay_operation.fee_payer (op : splitter_pay_operation) : account_id_type :=
  op.paying_account

/-- `splitter_payout_operation`. -/
structure splitter_payout_operation where
  fee : asset
  splitter_id : splitter_id_type
  owner : account_id_type
deriving DecidableEq

/-- `splitter_payout_operation::fee_parameters_type` (fixed fee only). -/
structure splitter_payout_operation.fee_parameters_type where
  fee : Nat
deriving DecidableEq

/-- `splitter_payout_operation::validate()`: `FC_ASSERT( fee.amount >= 0 );`. -/
def splitter_payout_operation.validate (op : splitter_payout_operation) : Bool :=
  decide (0 ≤ op.fee.amount)

/-- `splitter_payout_operation::fee_payer()` returns `owner`. -/
def splitter_payout_operation.fee_payer (op : splitter_payout_operation) : account_id_type :=
  op.owner

/-- `splitter_delete_operation`. -/
structure splitter_delete_operation where
  fee : asset
  splitter_id : splitter_id_type
  owner : account_id_type
deriving DecidableEq

/-- `splitter_delete_operation::fee_parameters_type` (fixed fee only). -/
structure splitter_delete_operation.fee_parameters_type where
  fee : Nat
deriving DecidableEq

/-- `splitter_delete_operation::validate()`: `FC_ASSERT( fee.amount >= 0 );`. -/
def splitter_delete_operation.validate (op : splitter_delete_operation) : Bool :=
  decide (0 ≤ op.fee.amount)

/-- `splitter_delete_operation::fee_payer()` returns `owner`. -/
def splitter_delete_operation.fee_payer (op : splitter_delete_operation) : account_id_type :=
  op.owner

/-- The `FC_REFLECT` member list of `splitter_create_operation`:
`(fee)(payer)(owner)(targets)(min_payment)(max_payment)(payout_threshold)`. -/
def splitter_create_reflect_fields : List String :=
  ["fee", "payer", "owner", "targets", "min_payment", "max_payment", "payout_threshold"]

/-- The `FC_REFLECT` member list of `splitter_update_operation`:
`(fee)(owner)(new_owner)(targets)(min_payment)(max_payment)(payout_threshold)`. -/
def splitter_update_reflect_fields : List String :=
  ["fee", "owner", "new_owner", "targets", "min_payment", "max_payment", "payout_threshold"]

/-- The `FC_REFLECT` member list of `splitter_pay_operation`:
`(fee)(splitter_id)(paying_account)(payment)`. -/
def splitter_pay_reflect_fields : List String :=
  ["fee", "splitter_id", "paying_account", "payment"]

/-- Modelled from the spec: byte length of fc's LEB128 varint
(`unsigned_int`) encoding, used by the field-order-dependent binary
serialization (§6, §9) that `fc::raw::pack_size` measures; the fc
library is not under `src/`. -/
def varint_size (n : Nat) : Nat :=
  if h : n < 128 then 1 else 1 + varint_size (n / 128)
decreasing_by omega

/-- Modelled from the spec: serialized size of an `asset`
(8-byte `share_type` amount plus varint asset id); fc serialization is
not under `src/`. -/
def pack_size_asset (a : asset) : Nat :=
  8 + varint_size a.asset_id

/-- Modelled from the spec: serialized size of a `price`
(base asset then quote asset); fc serialization is not under `src/`. -/
def pack_size_price (p : price) : Nat :=
  pack_size_asset p.base + pack_size_asset p.quote

/-- Modelled from the spec: serialized size of a
`payment_target_type` (varint variant tag followed by the payload);
fc serialization is not under `src/`. -/
def pack_size_target_type : payment_target_type → Nat
  | .account id => varint_size 0 + varint_size id
  | .buyback b => varint_size 1 + varint_size b.asset_to_buy + pack_size_price b.limit_price

/-- Modelled from the spec: serialized size of a `payment_target`
(2-byte `uint16_t` weight, then the target variant). -/
def pack_size_payment_target (t : payment_target) : Nat :=
  2 + pack_size_target_type t.target

/-- Modelled from the spec: serialized size of a target vector
(varint element count, then the elements in order). -/
def pack_size_targets (l : List payment_target) : Nat :=
  varint_size l.length + (l.map pack_size_payment_target).sum

/-- Modelled from the spec: `fc::raw::pack_size(*this)` for
`splitter_create_operation`, following its `FC_REFLECT` field list
`(fee)(payer)(owner)(targets)(min_payment)(max_payment)(payout_threshold)`. -/
def splitter_create_operation.pack_size (op : splitter_create_operation) : Nat :=
  pack_size_asset op.fee + varint_size op.payer + varint_size op.owner +
    pack_size_targets op.targets + pack_size_asset op.min_payment + 8 + 8

/-- Modelled from the spec: `fc::raw::pack_size(*this)` for
`splitter_update_operation`, following its `FC_REFLECT` field list
`(fee)(owner)(new_owner)(targets)(min_payment)(max_payment)(payout_threshold)`
(which omits `splitter_id`). -/
def splitter_update_operation.pack_size (op : splitter_update_operation) : Nat :=
  pack_size_asset op.fee + varint_size op.owner + varint_size op.new_owner +
    pack_size_targets op.targets + pack_size_asset op.min_payment + 8 + 8

/-- Modelled from the spec: `base_operation::calculate_data_fee`,
the external fee-schedule collaborator's
`calculate_fee(serialized_size, parameters) -> amount` (§6): a
per-kilobyte rate applied to the serialized byte count. -/
def calculate_data_fee (bytes price_per_kbyte : Nat) : Nat :=
  bytes * price_per_kbyte / 1024

/-- `splitter_create_operation::calculate_fee`:
`calculate_data_fee( fc::raw::pack_size(*this), k.price_per_kbyte ) + k.fee`. -/
def splitter_create_operation.calculate_fee (op : splitter_create_operation)
    (k : splitter_create_operation.fee_parameters_type) : Nat :=
  calculate_data_fee op.pack_size k.price_per_kbyte + k.fee

/-- `splitter_update_operation::calculate_fee`:
`calculate_data_fee( fc::raw::pack_size(*this), k.price_per_kbyte ) + k.fee`. -/
def splitter_update_operation.calculate_fee (op : splitter_update_operation)
    (k : splitter_update_operation.fee_parameters_type) : Nat :=
  calculate_data_fee op.pack_size k.price_per_kbyte + k.fee

/-- Modelled from the spec: `splitter_pay_operation` declares no
`calculate_fee`, inheriting the fixed-fee default ("pay/payout/delete
fees are fixed", §4.4); the base class is not under `src/`. -/
def splitter_pay_operation.calculate_fee (_op : splitter_pay_operation)
    (k : splitter_pay_operation.fee_parameters_type) : Nat :=
  k.fee

/-- Modelled from the spec: `splitter_payout_operation` declares no
`calculate_fee`, inheriting the fixed-fee default (§4.4). -/
def splitter_payout_operation.calculate_fee (_op : splitter_payout_operation)
    (k : splitter_payout_operation.fee_parameters_type) : Nat :=
  k.fee

/-- Modelled from the spec: `splitter_delete_operation` declares no
`calculate_fee`, inheriting the fixed-fee default (§4.4). -/
def splitter_delete_operation.calculate_fee (_op : splitter_delete_operation)
    (k : splitter_delete_operation.fee_parameters_type) : Nat :=
  k.fee

/-- `splitter_object` (§3): the persistent entity the operations act
on. -/
structure splitter_object where
  owner : account_id_type
  balance : asset
  targets : List payment_target
  min_payment : asset
  max_payment : share_type
  payout_threshold : share_type
deriving DecidableEq

/-- Error kinds of §7 that the modelled handlers can raise. -/
inductive splitter_error where
  | PaymentOutOfBounds
  | InsufficientBalanceForFee
deriving DecidableEq

/-- Modelled from the spec: the pay handler (§4.3, §4.4) is not under
`src/`.  It checks `payment.amount` against the object's
`min_payment`/`max_payment`, rejecting with `PaymentOutOfBounds`
before any mutation; otherwise `balance += payment.amount`, and when
the new balance reaches `payout_threshold` the distribution engine
runs and the balance resets to 0. -/
def do_pay (s : splitter_object) (op : splitter_pay_operation) :
    Except splitter_error splitter_object :=
  if op.payment.amount < s.min_payment.amount ∨ s.max_payment < op.payment.amount then
    .error .PaymentOutOfBounds
  else
    let b := s.balance.amount + op.payment.amount
    if s.payout_threshold ≤ b then
      .ok { s with balance := ⟨0, s.balance.asset_id⟩ }
    else
      .ok { s with balance := ⟨b, s.balance.asset_id⟩ }

/-- Sum of the weights of a target list (`W = Σ weight_i`, §4.2). -/
def weight_sum (targets : List payment_target) : Nat :=
  (targets.map (fun t => t.weight)).sum

/-- Modelled from the spec: the per-target floor shares of the
distribution engine (§4.2), `share_i = floor(amount * weight_i / W)`
in list order. -/
def base_shares (amount : Nat) (targets : List payment_target) : List Nat :=
  targets.map (fun t => amount * t.weight / weight_sum targets)

/-- Modelled from the spec: give the remainder one unit at a time, in
list order, to the first `r` entries (§4.2). -/
def add_remainder : List Nat → Nat → List Nat
  | [], _ => []
  | s :: rest, 0 => s :: add_remainder rest 0
  | s :: rest, r + 1 => (s + 1) :: add_remainder rest r

/-- Modelled from the spec: the distribution engine `distribute`
(§4.2), absent from `src/`: floor shares, then the remainder
`R = amount - Σ share_i` handed one unit at a time to the first `R`
targets in list order. -/
def distribute (amount : Nat) (targets : List payment_target) : List Nat :=
  let shares := base_shares amount targets
  add_remainder shares (amount - shares.sum)

/-! ### Helper lemmas about the distribution engine -/

theorem add_remainder_length (l : List Nat) (r : Nat) :
    (add_remainder l r).length = l.length := by
  induction l generalizing r with
  | nil => rfl
  | cons s rest ih =>
    cases r with
    | zero => simp [add_remainder, ih]
    | succ r => simp [add_remainder, ih]

theorem add_remainder_sum (l : List Nat) (r : Nat) :
    (add_remainder l r).sum = l.sum + min r l.length := by
  induction l generalizing r with
  | nil => simp [add_remainder]
  | cons s rest ih =>
    cases r with
    | zero => simp [add_remainder, ih]
    | succ r =>
      simp only [add_remainder, List.sum_cons, List.length_cons, ih]
      omega

theorem add_remainder_getD (l : List Nat) (r i : Nat) (h : i < l.length) :
    (add_remainder l r).getD i 0 = l.getD i 0 + (if i < r then 1 else 0) := by
  induction l generalizing r i with
  | nil => simp at h
  | cons s rest ih =>
    cases r with
    | zero =>
      cases i with
      | zero => simp [add_remainder]
      | succ i => simpa [add_remainder] using ih 0 i (by simpa using h)
    | succ r =>
      cases i with
      | zero => simp [add_remainder]
      | succ i =>
        have h' : i < rest.length := by simpa using h
        simp only [add_remainder, List.getD_cons_succ, ih r i h', Nat.succ_lt_succ_iff]

theorem getD_map_of_lt {α β : Type} (f : α → β) (l : List α) (i : Nat) (d : β) (d' : α)
    (h : i < l.length) : (l.map f).getD i d = f (l.getD i d') := by
  induction l generalizing i with
  | nil => simp at h
  | cons a rest ih =>
    cases i with
    | zero => simp
    | succ i => simpa using ih i (by simpa using h)

theorem weight_sum_pos (targets : List payment_target) (hne : targets ≠ [])
    (hw : ∀ t ∈ targets, 0 < t.weight) : 0 < weight_sum targets := by
  cases targets with
  | nil => exact absurd rfl hne
  | cons t rest =>
    have ht : 0 < t.weight := hw t (List.mem_cons_self t rest)
    simp only [weight_sum, List.map_cons, List.sum_cons]
    omega

theorem sum_map_div_le (l : List Nat) (W : Nat) :
    (l.map (fun x => x / W)).sum ≤ l.sum / W := by
  induction l with
  | nil => simp
  | cons a rest ih =>
    simp only [List.map_cons, List.sum_cons]
    calc a / W + (rest.map (fun x => x / W)).sum
        ≤ a / W + rest.sum / W := Nat.add_le_add_left ih (a / W)
      _ ≤ (a + rest.sum) / W := Nat.add_div_le_add_div a rest.sum W

theorem sum_mul_bound (a W : Nat) (hW : 0 < W) (l : List Nat) :
    (l.map (fun x => a * x)).sum + l.length ≤
      W * (l.map (fun x => a * x / W)).sum + l.length * W := by
  induction l with
  | nil => simp
  | cons w rest ih =>
    simp only [List.map_cons, List.sum_cons, List.length_cons]
    have hqr : W * (a * w / W) + a * w % W = a * w := Nat.div_add_mod (a * w) W
    have hr : a * w % W < W := Nat.mod_lt _ hW
    rw [Nat.mul_add, Nat.add_mul, Nat.one_mul]
    revert ih hqr hr
    generalize (rest.map fun x => a * x).sum = S
    generalize (rest.map fun x => a * x / W).sum = T
    generalize a * w / W = q
    generalize a * w % W = m
    generalize a * w = P
    generalize W * q = A
    generalize W * T = B
    generalize rest.length * W = C
    intro ih hqr hr
    omega

theorem base_shares_eq (amount : Nat) (targets : List payment_target) :
    base_shares amount targets
      = (targets.map (fun t => amount * t.weight)).map (fun x => x / weight_sum targets) := by
  simp [base_shares, List.map_map, Function.comp_def]

theorem sum_map_amount_mul (amount : Nat) (targets : List payment_target) :
    (targets.map (fun t => amount * t.weight)).sum = amount * weight_sum targets := by
  simpa [weight_sum] using (List.sum_map_mul_left targets (fun t => t.weight) amount)

theorem base_shares_sum_le (amount : Nat) (targets : List payment_target)
    (hW : 0 < weight_sum targets) :
    (base_shares amount targets).sum ≤ amount := by
  rw [base_shares_eq]
  calc ((targets.map (fun t => amount * t.weight)).map (fun x => x / weight_sum targets)).sum
      ≤ (targets.map (fun t => amount * t.weight)).sum / weight_sum targets :=
        sum_map_div_le _ _
    _ = amount * weight_sum targets / weight_sum targets := by rw [sum_map_amount_mul]
    _ = amount := Nat.mul_div_cancel amount hW

theorem remainder_lt_length (amount : Nat) (targets : List payment_target)
    (hne : targets ≠ []) (hW : 0 < weight_sum targets) :
    amount - (base_shares amount targets).sum < targets.length := by
  have hkey := sum_mul_bound amount (weight_sum targets) hW (targets.map (fun t => t.weight))
  have e1 : ((targets.map (fun t => t.weight)).map fun x => amount * x).sum
      = amount * weight_sum targets := by
    simpa [List.map_map, Function.comp_def] using sum_map_amount_mul amount targets
  have e2 : ((targets.map (fun t => t.weight)).map fun x => amount * x / weight_sum targets).sum
      = (base_shares amount targets).sum := by
    simp [base_shares, List.map_map, Function.comp_def]
  rw [e1, e2, List.length_map] at hkey
  have hSle := base_shares_sum_le amount targets hW
  by_contra hcon
  push_neg at hcon
  have hge : (base_shares amount targets).sum + targets.length ≤ amount := by omega
  have h1 : weight_sum targets * ((base_shares amount targets).sum + targets.length)
      ≤ weight_sum targets * amount := Nat.mul_le_mul (le_refl _) hge
  have hfin : amount * weight_sum targets + targets.length ≤ amount * weight_sum targets := by
    calc amount * weight_sum targets + targets.length
        ≤ weight_sum targets * (base_shares amount targets).sum
            + targets.length * weight_sum targets := hkey
      _ = weight_sum targets * ((base_shares amount targets).sum + targets.length) := by ring
      _ ≤ weight_sum targets * amount := h1
      _ = amount * weight_sum targets := Nat.mul_comm _ _
  have hn : 0 < targets.length := List.length_pos.mpr hne
  have h0 : amount * weight_sum targets + targets.length
      ≤ amount * weight_sum targets + 0 := by simpa using hfin
  have := Nat.le_of_add_le_add_left h0
  omega

theorem base_shares_length (amount : Nat) (targets : List payment_target) :
    (base_shares amount targets).length = targets.length := by
  simp [base_shares]

theorem distribute_length_eq (amount : Nat) (targets : List payment_target) :
    (distribute amount targets).length = targets.length := by
  simp [distribute, add_remainder_length, base_shares_length]

/-! ### Claim theorems -/

/-- C1: for every positive amount and every valid non-empty list of
weighted targets, `distribute(amount, targets)` returns per-target
disbursed amounts whose sum equals `amount` exactly; each target first
gets `floor(amount * weight_i / W)` with `W` the sum of weights, and
the remainder `R = amount - Σ floor` (which is `< len(targets)`) is
given one unit at a time to the first `R` targets in list order. -/
theorem C1_distribute_exact (amount : Nat) (targets : List payment_target)
    (hpos : 0 < amount) (hne : targets ≠ [])
    (hw : ∀ t ∈ targets, 0 < t.weight) :
    (distribute amount targets).sum = amount ∧
    (distribute amount targets).length = targets.length ∧
    amount - (base_shares amount targets).sum < targets.length ∧
    ∀ i, i < targets.length →
      (distribute amount targets).getD i 0 =
        amount * (targets.map (fun t => t.weight)).getD i 0 / weight_sum targets +
          (if i < amount - (base_shares amount targets).sum then 1 else 0) := by
  have hW : 0 < weight_sum targets := weight_sum_pos targets hne hw
  have hSle := base_shares_sum_le amount targets hW
  have hR := remainder_lt_length amount targets hne hW
  refine ⟨?_, distribute_length_eq amount targets, hR, ?_⟩
  · rw [show distribute amount targets
        = add_remainder (base_shares amount targets)
            (amount - (base_shares amount targets).sum) from rfl,
      add_remainder_sum, base_shares_length]
    omega
  · intro i hi
    have hi' : i < (base_shares amount targets).length := by
      rw [base_shares_length]; exact hi
    rw [show distribute amount targets
        = add_remainder (base_shares amount targets)
            (amount - (base_shares amount targets).sum) from rfl,
      add_remainder_getD _ _ _ hi']
    have e1 : (base_shares amount targets).getD i 0
        = amount * (targets.getD i ⟨0, .account 0⟩).weight / weight_sum targets := by
      rw [show base_shares amount targets
          = targets.map (fun t => amount * t.weight / weight_sum targets) from rfl]
      exact getD_map_of_lt _ targets i 0 ⟨0, .account 0⟩ hi
    have e2 : (targets.map (fun t => t.weight)).getD i 0
        = (targets.getD i ⟨0, .account 0⟩).weight :=
      getD_map_of_lt _ targets i 0 ⟨0, .account 0⟩ hi
    rw [e1, e2]

/-- The three-way equal-weight example of §8: `amount = 10`,
weights `[1, 1, 1]`. -/
def c1_example_targets : List payment_target :=
  [⟨1, .account 1⟩, ⟨1, .account 2⟩, ⟨1, .account 3⟩]

/-- Witness for C1 at the §8 example: the total disbursed is exactly
the amount paid in. -/
theorem C1_distribute_exact_witness :
    (distribute 10 c1_example_targets).sum = 10 :=
  (C1_distribute_exact 10 c1_example_targets (by decide) (by decide) (by decide)).1

/-- C5: the Target Validator accepts every `AccountTarget`
unconditionally, and accepts a `MarketBuybackTarget` if and only if
its `limit_price` is well-formed and the price's quote asset id equals
`asset_to_buy`; `market_buyback::validate` checks exactly the same
condition. -/
theorem C5_target_validator_spec :
    (∀ id : account_id_type, payment_target_validate (payment_target_type.account id) = true) ∧
    (∀ b : market_buyback,
      (payment_target_validate (payment_target_type.buyback b) = true ↔
        price_validate b.limit_price = true ∧ b.limit_price.quote.asset_id = b.asset_to_buy)) ∧
    (∀ b : market_buyback,
      market_buyback.validate b = payment_target_validate (payment_target_type.buyback b)) := by
  refine ⟨fun id => rfl, fun b => ?_, fun b => ?_⟩
  · constructor
    · intro h
      simp only [payment_target_validate, Bool.and_eq_true, decide_eq_true_eq] at h
      exact ⟨h.2, h.1.symm⟩
    · intro h
      simp only [payment_target_validate, Bool.and_eq_true, decide_eq_true_eq]
      exact ⟨h.2.symm, h.1⟩
  · simp only [market_buyback.validate, payment_target_validate]
    by_cases h2 : b.limit_price.quote.asset_id = b.asset_to_buy
    · simp [h2, Bool.and_comm]
    · have h2' : ¬b.asset_to_buy = b.limit_price.quote.asset_id := fun e => h2 e.symm
      simp [h2, h2']

/-- Witness for C5: a consistent buyback target is accepted. -/
theorem C5_target_validator_spec_witness :
    payment_target_validate (payment_target_type.buyback ⟨5, ⟨⟨1, 1⟩, ⟨2, 5⟩⟩⟩) = true :=
  (C5_target_validator_spec.2.1 ⟨5, ⟨⟨1, 1⟩, ⟨2, 5⟩⟩⟩).mpr ⟨by decide, rfl⟩

/-- C9: `fee_payer()` returns the designated `payer` for create, the
`paying_account` for pay, and the `owner` for update, payout and
delete. -/
theorem C9_fee_payer_spec :
    (∀ op : splitter_create_operation, op.fee_payer = op.payer) ∧
    (∀ op : splitter_pay_operation, op.fee_payer = op.paying_account) ∧
    (∀ op : splitter_update_operation, op.fee_payer = op.owner) ∧
    (∀ op : splitter_payout_operation, op.fee_payer = op.owner) ∧
    (∀ op : splitter_delete_operation, op.fee_payer = op.owner) :=
  ⟨fun _ => rfl, fun _ => rfl, fun _ => rfl, fun _ => rfl, fun _ => rfl⟩

/-- C10: every one of the five operations passes `validate` only if
`fee.amount >= 0`. -/
theorem C10_validate_requires_nonneg_fee :
    (∀ op : splitter_create_operation, op.validate = true → 0 ≤ op.fee.amount) ∧
    (∀ op : splitter_update_operation, op.validate = true → 0 ≤ op.fee.amount) ∧
    (∀ op : splitter_pay_operation, op.validate = true → 0 ≤ op.fee.amount) ∧
    (∀ op : splitter_payout_operation, op.validate = true → 0 ≤ op.fee.amount) ∧
    (∀ op : splitter_delete_operation, op.validate = true → 0 ≤ op.fee.amount) := by
  refine ⟨fun op h => ?_, fun op h => ?_, fun op h => ?_, fun op h => ?_, fun op h => ?_⟩
  · simp only [splitter_create_operation.validate, Bool.and_eq_true, decide_eq_true_eq] at h
    exact h.1.1.1.1
  · simp only [splitter_update_operation.validate, Bool.and_eq_true, decide_eq_true_eq] at h
    exact h.1.1.1.1
  · simp only [splitter_pay_operation.validate, Bool.and_eq_true, decide_eq_true_eq] at h
    exact h.2
  · simpa only [splitter_payout_operation.validate, decide_eq_true_eq] using h
  · simpa only [splitter_delete_operation.validate, decide_eq_true_eq] using h

/-- Concrete operations used to witness C10. -/
def c10_create_op : splitter_create_operation :=
  ⟨⟨0, 0⟩, 1, 2, [⟨1, .account 3⟩], ⟨1, 0⟩, 1, 0⟩

/-- Concrete update operation used to witness C10. -/
def c10_update_op : splitter_update_operation :=
  ⟨⟨0, 0⟩, 0, 2, 2, [⟨1, .account 3⟩], ⟨1, 0⟩, 1, 0⟩

/-- Concrete pay operation used to witness C10. -/
def c10_pay_op : splitter_pay_operation := ⟨⟨0, 0⟩, 0, 1, ⟨5, 0⟩⟩

/-- Concrete payout operation used to witness C10. -/
def c10_payout_op : splitter_payout_operation := ⟨⟨0, 0⟩, 0, 2⟩

/-- Concrete delete operation used to witness C10. -/
def c10_delete_op : splitter_delete_operation := ⟨⟨0, 0⟩, 0, 2⟩

/-- Witness for C10 at validated concrete operations of all five
kinds. -/
theorem C10_validate_requires_nonneg_fee_witness :
    0 ≤ c10_create_op.fee.amount ∧ 0 ≤ c10_update_op.fee.amount ∧
    0 ≤ c10_pay_op.fee.amount ∧ 0 ≤ c10_payout_op.fee.amount ∧
    0 ≤ c10_delete_op.fee.amount :=
  ⟨C10_validate_requires_nonneg_fee.1 c10_create_op (by decide),
   C10_validate_requires_nonneg_fee.2.1 c10_update_op (by decide),
   C10_validate_requires_nonneg_fee.2.2.1 c10_pay_op (by decide),
   C10_validate_requires_nonneg_fee.2.2.2.1 c10_payout_op (by decide),
   C10_validate_requires_nonneg_fee.2.2.2.2 c10_delete_op (by decide)⟩

/-- A buyback target whose limit price's quote asset (id 2) differs
from `asset_to_buy` (id 7); the Target Validator rejects it. -/
def c2_bad_buyback : market_buyback := ⟨7, ⟨⟨1, 1⟩, ⟨1, 2⟩⟩⟩

/-- An update operation carrying the inconsistent buyback target. -/
def c2_bad_update_op : splitter_update_operation :=
  ⟨⟨0, 0⟩, 0, 1, 1, [⟨1, .buyback c2_bad_buyback⟩], ⟨1, 0⟩, 1, 0⟩

/-- C2 (evidence): `splitter_update_operation::validate` accepts an
update whose target list contains a buyback target that the Target
Validator rejects — the update path never visits
`payment_target_validate`, unlike the create path. -/
theorem C2_update_skips_target_validator :
    splitter_update_operation.validate c2_bad_update_op = true ∧
    payment_target_validate (payment_target_type.buyback c2_bad_buyback) = false ∧
    c2_bad_update_op.targets = [⟨1, .buyback c2_bad_buyback⟩] :=
  ⟨by decide, by decide, rfl⟩

/-- A create operation with an empty target list and all other fields
in range. -/
def c4_empty_create_op : splitter_create_operation :=
  ⟨⟨0, 0⟩, 1, 2, [], ⟨1, 0⟩, 1, 0⟩

/-- C4 (evidence): `splitter_create_operation::validate` accepts a
create with an empty target list (the per-target loop is vacuous), so
the non-emptiness and positive-weight-sum parts of the §3 invariant
are not enforced. -/
theorem C4_create_accepts_empty_targets :
    splitter_create_operation.validate c4_empty_create_op = true ∧
    c4_empty_create_op.targets = [] ∧
    weight_sum c4_empty_create_op.targets = 0 := by
  decide

/-- C7 (evidence): the `FC_REFLECT` list of
`splitter_update_operation` omits `splitter_id` (which the struct
declares and which the pay/payout/delete reflection lists do carry),
so the serialized update record has seven fields, not the eight the
wire contract names. -/
theorem C7_update_reflect_omits_splitter_id :
    splitter_update_reflect_fields
      = ["fee", "owner", "new_owner", "targets", "min_payment", "max_payment",
          "payout_threshold"] ∧
    "splitter_id" ∉ splitter_update_reflect_fields ∧
    "splitter_id" ∈ splitter_pay_reflect_fields :=
  ⟨rfl, by decide, by decide⟩

/-- C3: create validation fails when `min_payment > max_payment`, when
any target's weight is 0, or when a buyback target's quote asset id
differs from its `asset_to_buy`; and it succeeds when none of these
defects is present, `min_payment > 0`, `payout_threshold >= 0`,
`fee >= 0`, and every buyback limit price is well-formed. -/
theorem C3_create_validate_characterized (op : splitter_create_operation) :
    ((op.max_payment < op.min_payment.amount
        ∨ (∃ t ∈ op.targets, t.weight = 0)
        ∨ (∃ t ∈ op.targets, ∃ b, t.target = payment_target_type.buyback b
             ∧ b.limit_price.quote.asset_id ≠ b.asset_to_buy))
      → op.validate = false) ∧
    ((0 ≤ op.fee.amount ∧ 0 < op.min_payment.amount ∧ op.min_payment.amount ≤ op.max_payment
        ∧ 0 ≤ op.payout_threshold
        ∧ (∀ t ∈ op.targets, 0 < t.weight
            ∧ ∀ b, t.target = payment_target_type.buyback b →
                price_validate b.limit_price = true
                ∧ b.limit_price.quote.asset_id = b.asset_to_buy))
      → op.validate = true) := by
  constructor
  · intro h
    rw [← Bool.not_eq_true]
    intro hv
    simp only [splitter_create_operation.validate, Bool.and_eq_true, decide_eq_true_eq,
      List.all_eq_true] at hv
    obtain ⟨⟨⟨⟨hfee, hmin⟩, hminmax⟩, hth⟩, htargets⟩ := hv
    rcases h with hmm | ⟨t, ht, hw0⟩ | ⟨t, ht, b, htb, hbq⟩
    · exact absurd hminmax (not_le.mpr hmm)
    · have hta := htargets t ht
      simp only [Bool.and_eq_true, decide_eq_true_eq] at hta
      omega
    · have hta := htargets t ht
      simp only [Bool.and_eq_true, decide_eq_true_eq] at hta
      have h2 := hta.2
      rw [htb] at h2
      simp only [payment_target_validate, Bool.and_eq_true, decide_eq_true_eq] at h2
      exact hbq h2.1.symm
  · intro h
    obtain ⟨hfee, hmin, hminmax, hth, htargets⟩ := h
    simp only [splitter_create_operation.validate, Bool.and_eq_true, decide_eq_true_eq,
      List.all_eq_true]
    refine ⟨⟨⟨⟨hfee, hmin⟩, hminmax⟩, hth⟩, ?_⟩
    intro t ht
    have hta := htargets t ht
    have hgoal : 0 < t.weight ∧ payment_target_validate t.target = true := by
      refine ⟨hta.1, ?_⟩
      cases htt : t.target with
      | account id => rfl
      | buyback b =>
        have hb := hta.2 b htt
        simp only [payment_target_validate, Bool.and_eq_true, decide_eq_true_eq]
        exact ⟨hb.2.symm, hb.1⟩
    simpa using hgoal

/-- A defect-free create operation with one account target and one
consistent buyback target. -/
def c3_good_create_op : splitter_create_operation :=
  ⟨⟨0, 0⟩, 1, 2, [⟨2, .account 3⟩, ⟨1, .buyback ⟨5, ⟨⟨1, 1⟩, ⟨2, 5⟩⟩⟩⟩], ⟨1, 0⟩, 10, 0⟩

/-- Witness for C3: the defect-free create operation passes
validation. -/
theorem C3_create_validate_characterized_witness :
    splitter_create_operation.validate c3_good_create_op = true := by
  apply (C3_create_validate_characterized c3_good_create_op).2
  refine ⟨by decide, by decide, by decide, by decide, ?_⟩
  intro t ht
  have ht' : t ∈ [(⟨2, .account 3⟩ : payment_target), ⟨1, .buyback ⟨5, ⟨⟨1, 1⟩, ⟨2, 5⟩⟩⟩⟩] := ht
  simp only [List.mem_cons, List.not_mem_nil, or_false] at ht'
  rcases ht' with rfl | rfl
  · refine ⟨by decide, ?_⟩
    intro b hb
    have hb2 : payment_target_type.account 3 = payment_target_type.buyback b := hb
    exact payment_target_type.noConfusion hb2
  · refine ⟨by decide, ?_⟩
    intro b hb
    have hb2 : payment_target_type.buyback ⟨5, ⟨⟨1, 1⟩, ⟨2, 5⟩⟩⟩
        = payment_target_type.buyback b := hb
    injection hb2 with hb3
    subst hb3
    exact ⟨by decide, by decide⟩

/-- C6: a pay whose amount lies outside the splitter's
`[min_payment, max_payment]` bounds is rejected by the pay handler
with `PaymentOutOfBounds` (no successor state is produced), and
`splitter_pay_operation::validate` requires `payment.amount > 0`. -/
theorem C6_pay_bounds_and_positive :
    (∀ (s : splitter_object) (op : splitter_pay_operation),
      (op.payment.amount < s.min_payment.amount ∨ s.max_payment < op.payment.amount) →
        do_pay s op = .error .PaymentOutOfBounds) ∧
    (∀ op : splitter_pay_operation, op.validate = true → 0 < op.payment.amount) := by
  constructor
  · intro s op h
    unfold do_pay
    rw [if_pos h]
  · intro op h
    simp only [splitter_pay_operation.validate, Bool.and_eq_true, decide_eq_true_eq] at h
    exact h.1

/-- A splitter whose payment bounds are `[10, 100]`. -/
def c6_splitter : splitter_object :=
  ⟨2, ⟨0, 0⟩, [⟨1, .account 3⟩], ⟨10, 0⟩, 100, 1000⟩

/-- A pay operation of 5 units: positive, but below the minimum of
`c6_splitter`. -/
def c6_low_pay_op : splitter_pay_operation := ⟨⟨0, 0⟩, 0, 1, ⟨5, 0⟩⟩

/-- Witness for C6: paying 5 against bounds `[10, 100]` is rejected
with `PaymentOutOfBounds`, and a validated pay has a positive
amount. -/
theorem C6_pay_bounds_and_positive_witness :
    do_pay c6_splitter c6_low_pay_op = .error .PaymentOutOfBounds ∧
    0 < c6_low_pay_op.payment.amount :=
  ⟨C6_pay_bounds_and_positive.1 c6_splitter c6_low_pay_op (by decide),
   C6_pay_bounds_and_positive.2 c6_low_pay_op (by decide)⟩

/-- C8: create and update fees are the size-based
`calculate_data_fee` of the serialized operation (at the
per-kilobyte rate) plus the fixed base fee, and `calculate_data_fee`
is monotone in the serialized size; pay, payout and delete fees are
the fixed parameter alone, independent of the operation's content. -/
theorem C8_fee_structure :
    (∀ (op : splitter_create_operation) (k : splitter_create_operation.fee_parameters_type),
      op.calculate_fee k = calculate_data_fee op.pack_size k.price_per_kbyte + k.fee) ∧
    (∀ (op : splitter_update_operation) (k : splitter_update_operation.fee_parameters_type),
      op.calculate_fee k = calculate_data_fee op.pack_size k.price_per_kbyte + k.fee) ∧
    (∀ b1 b2 p : Nat, b1 ≤ b2 → calculate_data_fee b1 p ≤ calculate_data_fee b2 p) ∧
    (∀ (op1 op2 : splitter_pay_operation) (k : splitter_pay_operation.fee_parameters_type),
      op1.calculate_fee k = k.fee ∧ op1.calculate_fee k = op2.calculate_fee k) ∧
    (∀ (op1 op2 : splitter_payout_operation) (k : splitter_payout_operation.fee_parameters_type),
      op1.calculate_fee k = k.fee ∧ op1.calculate_fee k = op2.calculate_fee k) ∧
    (∀ (op1 op2 : splitter_delete_operation) (k : splitter_delete_operation.fee_parameters_type),
      op1.calculate_fee k = k.fee ∧ op1.calculate_fee k = op2.calculate_fee k) := by
  refine ⟨fun op k => rfl, fun op k => rfl, ?_, fun op1 op2 k => ⟨rfl, rfl⟩,
    fun op1 op2 k => ⟨rfl, rfl⟩, fun op1 op2 k => ⟨rfl, rfl⟩⟩
  intro b1 b2 p h
  exact Nat.div_le_div_right (Nat.mul_le_mul h (Nat.le_refl p))

/-- Witness for C8: the data fee is monotone at sizes 1024 and 2048,
and a pay fee equals the fixed parameter. -/
theorem C8_fee_structure_witness :
    calculate_data_fee 1024 7 ≤ calculate_data_fee 2048 7 ∧
    splitter_pay_operation.calculate_fee c10_pay_op ⟨20⟩ = 20 :=
  ⟨C8_fee_structure.2.2.1 1024 2048 7 (by decide),
   (C8_fee_structure.2.2.2.1 c10_pay_op c10_pay_op ⟨20⟩).1⟩
